import Mathlib

/-!
Verification of the `kvstore` repository: an in-memory key-value store behind
a line-oriented TCP protocol.

The embedding below translates the two relevant source units:

* `KVStore` (`include/KVStore.hpp`, `KVStore.cpp`): an
  `unordered_map<string, string>` with `set`, `get` and `remove`.  The map is
  modelled as a function `String → Option String`; the mutating methods are
  modelled as state transformers.

* `Server::handle_client` (`src/server.cpp`): the connection handler.  It
  accumulates delivered bytes in a `std::string` buffer (each delivery is
  appended as a NUL-terminated C string, so the appended portion stops at the
  first NUL byte), repeatedly splits off `'\n'`-terminated lines, skips empty
  lines, parses the first whitespace token with `istringstream`, dispatches to
  the store (`SET`, `GET`, `DEL`) and writes one response per non-empty line;
  a failed write closes the connection immediately.

Lines are modelled as `List Char`; the write syscall outcomes are modelled by
a list of booleans consumed one per attempted response write (an exhausted
list means every further write succeeds).
-/

namespace KVSpec

/-- Whitespace as classified by `std::istream` token extraction with the
default locale: space, tab, newline, vertical tab, form feed, carriage
return. -/
def isWs (c : Char) : Bool :=
  c = ' ' || c = '\t' || c = '\n' || c = Char.ofNat 11 || c = Char.ofNat 12 || c = '\r'

/-- The store contents: `std::unordered_map<std::string, std::string>` as a
finite-support mapping from keys to values. -/
abbrev Store := String → Option String

/-- The freshly constructed, empty map. -/
def emptyStore : Store := fun _ => none

/-- `KVStore::set`: `data_[key] = value;` — insert or overwrite. -/
def KVStore.set (st : Store) (key value : String) : Store :=
  fun q => if q = key then some value else st q

/-- `KVStore::get` as a state transformer: `find` the key and return
`it->second` when present, `""` otherwise; the map itself is only read. -/
def KVStore.getS (st : Store) (key : String) : String × Store :=
  match st key with
  | some v => (v, st)
  | none => ("", st)

/-- The value returned by `KVStore::get`. -/
def KVStore.get (st : Store) (key : String) : String :=
  (KVStore.getS st key).1

/-- `KVStore::remove`: if `find` succeeds, `erase` the key and return `true`,
otherwise return `false`; paired with the resulting map. -/
def KVStore.remove (st : Store) (key : String) : Bool × Store :=
  match st key with
  | some _ => (true, fun q => if q = key then none else st q)
  | none => (false, st)

/-- One `iss >> tok` extraction: skip leading whitespace, then take the
maximal run of non-whitespace characters; returns the token and the rest of
the stream (positioned directly after the token). -/
def extractToken (s : List Char) : List Char × List Char :=
  let s2 := s.dropWhile (fun c => isWs c)
  (s2.takeWhile (fun c => !isWs c), s2.dropWhile (fun c => !isWs c))

/-- The `SET` value fixup in `handle_client`:
`if (!value.empty() && value[0] == ' ') value.erase(0, 1);` -/
def stripOneSpace : List Char → List Char
  | ' ' :: rest => rest
  | s => s

/-- The body of `handle_client`'s inner loop for one extracted line: skip the
line if empty, otherwise parse the first token and dispatch to the store.
Returns the updated store and the response written back, if any. -/
def processLine (st : Store) (line : List Char) : Store × Option String :=
  if line.isEmpty then (st, none)
  else
    let p := extractToken line
    if p.1 = "SET".toList then
      let q := extractToken p.2
      let value := stripOneSpace q.2
      if !q.1.isEmpty && !value.isEmpty then
        (KVStore.set st q.1.asString value.asString, some "OK\n")
      else
        (st, some "ERROR: SET requires key and value\n")
    else if p.1 = "GET".toList then
      let q := extractToken p.2
      if !q.1.isEmpty then
        let value := KVStore.get st q.1.asString
        if !value.isEmpty then (st, some (value ++ "\n"))
        else (st, some "NOT_FOUND\n")
      else (st, some "ERROR: GET requires key\n")
    else if p.1 = "DEL".toList then
      let q := extractToken p.2
      if !q.1.isEmpty then
        let r := KVStore.remove st q.1.asString
        (r.2, some (if r.1 then "DELETED\n" else "NOT_FOUND\n"))
      else (st, some "ERROR: DEL requires key\n")
    else (st, some "ERROR: Unknown command\n")

/-- The line-splitting loop of `handle_client`:
`while ((pos = buffer.find('\n')) != npos)` — emit every prefix up to a
`'\n'` (terminator stripped) and keep the terminator-free remainder. -/
def extractLines : List Char → List (List Char) × List Char
  | [] => ([], [])
  | c :: rest =>
    let r := extractLines rest
    if c = '\n' then ([] :: r.1, r.2)
    else
      match r.1 with
      | [] => ([], c :: r.2)
      | l :: ls => ((c :: l) :: ls, r.2)

/-- The NUL byte: `read` data is stored in `chunk`, NUL-terminated, and
appended with `buffer += chunk`, which stops at the first NUL. -/
def NUL : Char := Char.ofNat 0

/-- One delivery step of `handle_client`: append the delivered bytes to the
accumulation buffer as a C string (truncated at the first NUL byte) and run
the line-splitting loop.  Returns the extracted lines and the leftover
buffer. -/
def feed (buf delivered : List Char) : List (List Char) × List Char :=
  extractLines (buf ++ delivered.takeWhile (fun c => c ≠ NUL))

/-- `handle_client`'s processing of a sequence of extracted lines, with an
explicit oracle `wr` of write-syscall outcomes, consumed one per attempted
response write (an exhausted oracle means success).  A failed write
(`bytes_written < 0`) closes the connection at once: no further line is
processed.  Returns the final store and the responses successfully
written. -/
def runLines : Store → List Bool → List (List Char) → Store × List String
  | st, _, [] => (st, [])
  | st, wr, l :: ls =>
    match processLine st l with
    | (st2, none) => runLines st2 wr ls
    | (st2, some r) =>
      match wr with
      | [] =>
        let p := runLines st2 [] ls
        (p.1, r :: p.2)
      | true :: wr2 =>
        let p := runLines st2 wr2 ls
        (p.1, r :: p.2)
      | false :: _ => (st2, [])

/-- A line that the dispatch answers with an `ERROR:` response: an unknown
first token, a `SET` missing its key or value, or a `GET`/`DEL` missing its
key. -/
def isErrorLine (line : List Char) : Bool :=
  let p := extractToken line
  let q := extractToken p.2
  if p.1 = "SET".toList then q.1.isEmpty || (stripOneSpace q.2).isEmpty
  else if p.1 = "GET".toList then q.1.isEmpty
  else if p.1 = "DEL".toList then q.1.isEmpty
  else true

/-- Splitting the line-extraction loop at any point of the buffer: the lines
of `s ++ t` are the lines of `s` followed by the lines of the leftover of `s`
prepended to `t`, and the leftovers agree. -/
theorem extractLines_append (s t : List Char) :
    extractLines (s ++ t)
      = ((extractLines s).1 ++ (extractLines ((extractLines s).2 ++ t)).1,
         (extractLines ((extractLines s).2 ++ t)).2) := by
  induction s with
  | nil => simp [extractLines]
  | cons c s ih =>
    by_cases hc : c = '\n'
    · subst hc
      simp [extractLines, ih]
    · simp only [List.cons_append, extractLines, if_neg hc, List.append_eq]
      rw [ih]
      cases h1 : (extractLines s).1 with
      | nil =>
        cases h2 : (extractLines ((extractLines s).2 ++ t)).1 <;>
          simp [extractLines, if_neg hc, h1, h2]
      | cons a as =>
        simp [h1]

theorem takeWhile_eq_self_of_all {α : Type} (p : α → Bool) (l : List α)
    (h : ∀ c ∈ l, p c = true) : l.takeWhile p = l := by
  induction l with
  | nil => rfl
  | cons c l ih =>
    simp [List.takeWhile_cons, h c (List.mem_cons_self c l),
      ih fun d hd => h d (List.mem_cons_of_mem c hd)]

/-- A NUL-free delivery is appended in full. -/
theorem feed_no_nul (b d : List Char) (hd : NUL ∉ d) :
    feed b d = extractLines (b ++ d) := by
  unfold feed
  rw [takeWhile_eq_self_of_all (fun c => decide (c ≠ NUL)) d fun c hc =>
    decide_eq_true fun h => hd (h ▸ hc)]

/-- C2 counterexample: the handler appends each delivery as a NUL-terminated
C string, so a delivery containing a NUL byte is truncated; splitting the
input `['a', NUL, 'b', '\n']` into the deliveries `['a', NUL]` and
`['b', '\n']` yields the line `"ab"`, while the undivided delivery yields no
line at all. -/
theorem feed_split_counterexample :
    (feed [] (['a', NUL] ++ ['b', '\n'])).1
      ≠ (feed [] ['a', NUL]).1 ++ (feed (feed [] ['a', NUL]).2 ['b', '\n']).1 := by
  decide

/-- C2 (amended): for deliveries free of NUL bytes, feeding two fragments in
two successive calls yields the same extracted lines and the same leftover
buffer as feeding the concatenation at once; in particular `"SE"` then
`"T k v\n"` yields exactly the single line `SET k v`, the same as feeding
`"SET k v\n"` at once, and that line stores `"v"` under `"k"` and answers
`OK`. -/
theorem feed_split (b x y : List Char) (hx : NUL ∉ x) (hy : NUL ∉ y) :
    feed b (x ++ y)
      = ((feed b x).1 ++ (feed (feed b x).2 y).1, (feed (feed b x).2 y).2)
    ∧ (feed [] "SE".toList).1 = []
    ∧ feed (feed [] "SE".toList).2 "T k v\n".toList = (["SET k v".toList], [])
    ∧ feed [] "SET k v\n".toList = (["SET k v".toList], [])
    ∧ (processLine emptyStore "SET k v".toList).2 = some "OK\n"
    ∧ (processLine emptyStore "SET k v".toList).1 "k" = some "v" := by
  refine ⟨?_, by decide, by decide, by decide, by decide, by decide⟩
  have hxy : NUL ∉ x ++ y := by
    intro h
    exact (List.mem_append.1 h).elim hx hy
  rw [feed_no_nul (feed b x).2 y hy, feed_no_nul b x hx, feed_no_nul b (x ++ y) hxy,
    ← List.append_assoc]
  exact extractLines_append (b ++ x) y

/-- Witness for C2 at buffer `[]` with the deliveries `"SE"` and
`"T k v\n"`. -/
theorem feed_split_witness :
    NUL ∉ "SE".toList
    ∧ NUL ∉ "T k v\n".toList
    ∧ (feed [] ("SE".toList ++ "T k v\n".toList)
        = ((feed [] "SE".toList).1
            ++ (feed (feed [] "SE".toList).2 "T k v\n".toList).1,
           (feed (feed [] "SE".toList).2 "T k v\n".toList).2)
      ∧ (feed [] "SE".toList).1 = []
      ∧ feed (feed [] "SE".toList).2 "T k v\n".toList = (["SET k v".toList], [])
      ∧ feed [] "SET k v\n".toList = (["SET k v".toList], [])
      ∧ (processLine emptyStore "SET k v".toList).2 = some "OK\n"
      ∧ (processLine emptyStore "SET k v".toList).1 "k" = some "v") :=
  ⟨by decide, by decide,
    feed_split [] "SE".toList "T k v\n".toList (by decide) (by decide)⟩

theorem isEmpty_false_of_token {line tok : List Char}
    (h : (extractToken line).1 = tok) (ht : tok ≠ []) : line.isEmpty = false := by
  cases line with
  | nil => exact absurd h.symm ht
  | cons c l => rfl

theorem isEmpty_false_of_ne_nil {l : List Char} (h : l ≠ []) : l.isEmpty = false := by
  cases l with
  | nil => exact absurd rfl h
  | cons a l => rfl

theorem remove_fst (st : Store) (k : String) :
    (KVStore.remove st k).1 = (st k).isSome := by
  cases h : st k <;> simp [KVStore.remove, h]

theorem remove_self (st : Store) (k : String) :
    (KVStore.remove st k).2 k = none := by
  cases h : st k <;> simp [KVStore.remove, h]

/-- The key argument of a `GET`/`DEL` line: the token following the command
token. -/
def lineKey (line : List Char) : List Char :=
  (extractToken (extractToken line).2).1

/-- Evaluation of the dispatch on a line whose first token is `DEL`. -/
theorem processLine_del (st : Store) (line : List Char)
    (hcmd : (extractToken line).1 = "DEL".toList) :
    processLine st line =
      if !(lineKey line).isEmpty then
        ((KVStore.remove st (lineKey line).asString).2,
         some (if (KVStore.remove st (lineKey line).asString).1 then "DELETED\n"
               else "NOT_FOUND\n"))
      else (st, some "ERROR: DEL requires key\n") := by
  have hne : line.isEmpty = false := isEmpty_false_of_token hcmd (by decide)
  have e1 : ((extractToken line).1 = "SET".toList) = False := by
    rw [hcmd]; exact eq_false (by decide)
  have e2 : ((extractToken line).1 = "GET".toList) = False := by
    rw [hcmd]; exact eq_false (by decide)
  have e3 : ((extractToken line).1 = "DEL".toList) = True := eq_true hcmd
  simp only [processLine, lineKey, hne, Bool.false_eq_true, e1, e2, e3,
    if_false, if_true]

/-- The behaviour the amended C1 asserts of a `DEL` line: with a non-empty
key the dispatch removes exactly that key and answers `DELETED` when the key
was present and `NOT_FOUND` when absent; with no key it answers
`ERROR: DEL requires key` and leaves the store alone. -/
def delLineSpec (st : Store) (line : List Char) : Prop :=
  (lineKey line ≠ [] →
    processLine st line
      = ((KVStore.remove st (lineKey line).asString).2,
         some (if (st (lineKey line).asString).isSome then "DELETED\n"
               else "NOT_FOUND\n"))
    ∧ (processLine st line).1 (lineKey line).asString = none)
  ∧ (lineKey line = [] →
    processLine st line = (st, some "ERROR: DEL requires key\n"))

/-- C1 counterexample: the code dispatches on the token `DEL`, not `DELETE`;
the line `"DELETE k"` (first token `DELETE`, non-empty key `k`) is answered
`ERROR: Unknown command`, not `DELETED`/`NOT_FOUND`. -/
theorem delete_keyword_counterexample :
    (extractToken "DELETE k".toList).1 = "DELETE".toList
    ∧ lineKey "DELETE k".toList = "k".toList
    ∧ (processLine emptyStore "DELETE k".toList).2 = some "ERROR: Unknown command\n"
    ∧ (processLine emptyStore "DELETE k".toList).2 ≠ some "NOT_FOUND\n"
    ∧ (processLine emptyStore "DELETE k".toList).2 ≠ some "DELETED\n" := by
  decide

/-- C1 (amended): for every line whose first whitespace-separated token is
`DEL` followed by a non-empty key, the handler dispatches a delete for that
key and responds `DELETED` if the key was present and `NOT_FOUND` if it was
absent; a `DEL` line with no key yields `ERROR: DEL requires key`. -/
theorem del_dispatch (st : Store) (line : List Char)
    (hcmd : (extractToken line).1 = "DEL".toList) : delLineSpec st line := by
  constructor
  · intro hkey
    have hk : (lineKey line).isEmpty = false := isEmpty_false_of_ne_nil hkey
    rw [processLine_del st line hcmd]
    simp only [hk, Bool.not_false, if_true]
    exact ⟨by rw [remove_fst], remove_self st (lineKey line).asString⟩
  · intro hkey
    rw [processLine_del st line hcmd]
    have hk : (lineKey line).isEmpty = true := by rw [hkey]; rfl
    simp [hk]

/-- Witness for C1 on the line `"DEL k"` against a store holding `"k"`. -/
theorem del_dispatch_witness :
    (extractToken "DEL k".toList).1 = "DEL".toList
    ∧ delLineSpec (KVStore.set emptyStore "k" "v") "DEL k".toList :=
  ⟨by decide, del_dispatch (KVStore.set emptyStore "k" "v") "DEL k".toList (by decide)⟩

/-- C3: for every key `k` and non-empty value `v`, `set(k, v)` followed by
`get(k)` returns `v`; the write always succeeds and is visible to the
immediately following read. -/
theorem set_then_get (st : Store) (k v : String) (_hv : v ≠ "") :
    KVStore.get (KVStore.set st k v) k = v := by
  simp [KVStore.get, KVStore.getS, KVStore.set]

/-- Witness for C3 at `k = "a"`, `v = "1"` on the empty store. -/
theorem set_then_get_witness :
    ("1" : String) ≠ "" ∧ KVStore.get (KVStore.set emptyStore "a" "1") "a" = "1" :=
  ⟨by decide, set_then_get emptyStore "a" "1" (by decide)⟩

/-- C4: `delete(k)` returns `true` exactly when `k` is present beforehand,
afterwards `k` is absent, and a second delete of the same key returns
`false`. -/
theorem remove_spec (st : Store) (k : String) :
    (KVStore.remove st k).1 = (st k).isSome
    ∧ (KVStore.remove st k).2 k = none
    ∧ (KVStore.remove (KVStore.remove st k).2 k).1 = false
    ∧ ((st k).isSome = true → (KVStore.remove st k).1 = true) := by
  cases h : st k <;> simp [KVStore.remove, h]

/-- Witness for C4 on a store holding key `"a"`. -/
theorem remove_spec_witness :
    (KVStore.remove (KVStore.set emptyStore "a" "1") "a").1
        = ((KVStore.set emptyStore "a" "1") "a").isSome
    ∧ (KVStore.remove (KVStore.set emptyStore "a" "1") "a").2 "a" = none
    ∧ (KVStore.remove (KVStore.remove (KVStore.set emptyStore "a" "1") "a").2 "a").1 = false
    ∧ (((KVStore.set emptyStore "a" "1") "a").isSome = true →
        (KVStore.remove (KVStore.set emptyStore "a" "1") "a").1 = true) :=
  remove_spec (KVStore.set emptyStore "a" "1") "a"

/-- The value argument of a `SET` line: the remainder of the line after the
key token, with one leading space stripped. -/
def lineValue (line : List Char) : List Char :=
  stripOneSpace (extractToken (extractToken line).2).2

/-- Evaluation of the dispatch on a line whose first token is `SET`. -/
theorem processLine_set (st : Store) (line : List Char)
    (hcmd : (extractToken line).1 = "SET".toList) :
    processLine st line =
      if !(lineKey line).isEmpty && !(lineValue line).isEmpty then
        (KVStore.set st (lineKey line).asString (lineValue line).asString, some "OK\n")
      else (st, some "ERROR: SET requires key and value\n") := by
  have hne : line.isEmpty = false := isEmpty_false_of_token hcmd (by decide)
  have e1 : ((extractToken line).1 = "SET".toList) = True := eq_true hcmd
  simp only [processLine, lineKey, lineValue, hne, Bool.false_eq_true, e1,
    if_false, if_true]

/-- Evaluation of the dispatch on a line whose first token is `GET`. -/
theorem processLine_get (st : Store) (line : List Char)
    (hcmd : (extractToken line).1 = "GET".toList) :
    processLine st line =
      if !(lineKey line).isEmpty then
        if !(KVStore.get st (lineKey line).asString).isEmpty then
          (st, some (KVStore.get st (lineKey line).asString ++ "\n"))
        else (st, some "NOT_FOUND\n")
      else (st, some "ERROR: GET requires key\n") := by
  have hne : line.isEmpty = false := isEmpty_false_of_token hcmd (by decide)
  have e1 : ((extractToken line).1 = "SET".toList) = False := by
    rw [hcmd]; exact eq_false (by decide)
  have e2 : ((extractToken line).1 = "GET".toList) = True := eq_true hcmd
  simp only [processLine, lineKey, hne, Bool.false_eq_true, e1, e2,
    if_false, if_true]

/-- Evaluation of the dispatch on a non-empty line whose first token is none
of `SET`, `GET`, `DEL`. -/
theorem processLine_unknown (st : Store) (line : List Char)
    (hne : line.isEmpty = false)
    (hS : ¬(extractToken line).1 = "SET".toList)
    (hG : ¬(extractToken line).1 = "GET".toList)
    (hD : ¬(extractToken line).1 = "DEL".toList) :
    processLine st line = (st, some "ERROR: Unknown command\n") := by
  simp only [processLine, hne, Bool.false_eq_true, eq_false hS, eq_false hG,
    eq_false hD, if_false]

/-- The behaviour C5 asserts of a `SET` line: with a non-empty key and a
non-empty stripped remainder, the store maps the key to that remainder and
the answer is `OK`; otherwise the answer is the `SET` error and the store is
untouched. -/
def setLineSpec (st : Store) (line : List Char) : Prop :=
  (lineKey line ≠ [] ∧ lineValue line ≠ [] →
    processLine st line
      = (KVStore.set st (lineKey line).asString (lineValue line).asString,
         some "OK\n"))
  ∧ (lineKey line = [] ∨ lineValue line = [] →
    processLine st line = (st, some "ERROR: SET requires key and value\n"))

/-- C5: dispatch of a line whose first whitespace-separated token is `SET`:
non-empty key and non-empty one-space-stripped remainder update the store and
answer `OK`; an empty key or empty stripped remainder answers
`ERROR: SET requires key and value` and leaves the store unchanged. -/
theorem set_dispatch (st : Store) (line : List Char)
    (hcmd : (extractToken line).1 = "SET".toList) : setLineSpec st line := by
  rw [setLineSpec, processLine_set st line hcmd]
  constructor
  · intro hkv
    simp [isEmpty_false_of_ne_nil hkv.1, isEmpty_false_of_ne_nil hkv.2]
  · intro hkv
    cases hkv with
    | inl h =>
      have hk : (lineKey line).isEmpty = true := by rw [h]; rfl
      simp [hk]
    | inr h =>
      have hk : (lineValue line).isEmpty = true := by rw [h]; rfl
      simp [hk]

/-- Witness for C5 on the lines `"SET k v"` and `"SET k"`. -/
theorem set_dispatch_witness :
    (extractToken "SET k v".toList).1 = "SET".toList
    ∧ setLineSpec emptyStore "SET k v".toList
    ∧ setLineSpec emptyStore "SET k".toList :=
  ⟨by decide, set_dispatch emptyStore "SET k v".toList (by decide),
    set_dispatch emptyStore "SET k".toList (by decide)⟩

/-- C6: through the read path an empty stored value and an absent key are
indistinguishable: a `GET` with a non-empty key whose stored value is `""`,
or whose key is absent, is answered `NOT_FOUND` either way. -/
theorem get_conflates (st : Store) (line : List Char)
    (hcmd : (extractToken line).1 = "GET".toList)
    (hkey : lineKey line ≠ [])
    (hval : st (lineKey line).asString = some ""
      ∨ st (lineKey line).asString = none) :
    (processLine st line).2 = some "NOT_FOUND\n" := by
  have hv : KVStore.get st (lineKey line).asString = "" := by
    cases hval with
    | inl h => simp [KVStore.get, KVStore.getS, h]
    | inr h => simp [KVStore.get, KVStore.getS, h]
  rw [processLine_get st line hcmd]
  have he : ("" : String).isEmpty = true := by decide
  simp [isEmpty_false_of_ne_nil hkey, hv, he]

/-- Witness for C6 on the line `"GET k"`, once against a store mapping `"k"`
to the empty string and once against the empty store. -/
theorem get_conflates_witness :
    lineKey "GET k".toList ≠ []
    ∧ KVStore.set emptyStore "k" "" (lineKey "GET k".toList).asString = some ""
    ∧ (processLine (KVStore.set emptyStore "k" "") "GET k".toList).2
        = some "NOT_FOUND\n"
    ∧ (processLine emptyStore "GET k".toList).2 = some "NOT_FOUND\n" :=
  ⟨by decide, by decide,
    get_conflates (KVStore.set emptyStore "k" "") "GET k".toList (by decide)
      (by decide) (Or.inl (by decide)),
    get_conflates emptyStore "GET k".toList (by decide) (by decide) (Or.inr rfl)⟩

/-- C10: a `GET` or `DEL` dispatch depends only on the command token and the
first key token; two lines agreeing on those — in particular a line with
extra trailing tokens and the same line without them — produce the same store
and the same response. -/
theorem extra_tokens_ignored (st : Store) (l1 l2 : List Char)
    (hcmd : (extractToken l1).1 = (extractToken l2).1)
    (hgd : (extractToken l1).1 = "GET".toList ∨ (extractToken l1).1 = "DEL".toList)
    (hkey : lineKey l1 = lineKey l2) :
    processLine st l1 = processLine st l2 := by
  cases hgd with
  | inl h => rw [processLine_get st l1 h, processLine_get st l2 (hcmd.symm.trans h), hkey]
  | inr h => rw [processLine_del st l1 h, processLine_del st l2 (hcmd.symm.trans h), hkey]

/-- Witness for C10: `"GET a extra"` behaves as `"GET a"` on a store holding
`"a"`. -/
theorem extra_tokens_witness :
    (extractToken "GET a extra".toList).1 = (extractToken "GET a".toList).1
    ∧ ((extractToken "GET a extra".toList).1 = "GET".toList
        ∨ (extractToken "GET a extra".toList).1 = "DEL".toList)
    ∧ lineKey "GET a extra".toList = lineKey "GET a".toList
    ∧ processLine (KVStore.set emptyStore "a" "1") "GET a extra".toList
        = processLine (KVStore.set emptyStore "a" "1") "GET a".toList :=
  ⟨by decide, Or.inl (by decide), by decide,
    extra_tokens_ignored (KVStore.set emptyStore "a" "1") "GET a extra".toList
      "GET a".toList (by decide) (Or.inl (by decide)) (by decide)⟩

/-- C9: `get` leaves the map unchanged, and `set k v` / `remove k` leave every
key other than `k` unchanged. -/
theorem frame_conditions (st : Store) (k q v : String) (hq : q ≠ k) :
    (KVStore.getS st k).2 = st
    ∧ KVStore.set st k v q = st q
    ∧ (KVStore.remove st k).2 q = st q := by
  refine ⟨?_, ?_, ?_⟩
  · cases h : st k <;> simp [KVStore.getS, h]
  · simp [KVStore.set, hq]
  · cases h : st k <;> simp [KVStore.remove, h, hq]

/-- Witness for C9 at keys `"a" ≠ "b"`. -/
theorem frame_conditions_witness :
    (KVStore.getS emptyStore "a").2 = emptyStore
    ∧ KVStore.set emptyStore "a" "1" "b" = emptyStore "b"
    ∧ (KVStore.remove emptyStore "a").2 "b" = emptyStore "b" :=
  frame_conditions emptyStore "a" "b" "1" (by decide)

theorem runLines_cons_none (st st2 : Store) (wr : List Bool) (l : List Char)
    (ls : List (List Char)) (h : processLine st l = (st2, none)) :
    runLines st wr (l :: ls) = runLines st2 wr ls := by
  simp [runLines, h]

theorem runLines_cons_some_true (st st2 : Store) (r : String) (wr : List Bool)
    (l : List Char) (ls : List (List Char)) (h : processLine st l = (st2, some r)) :
    runLines st (true :: wr) (l :: ls)
      = ((runLines st2 wr ls).1, r :: (runLines st2 wr ls).2) := by
  simp [runLines, h]

/-- Every line flagged by `isErrorLine` is answered with a single
`ERROR:`-prefixed response and leaves the store untouched. -/
theorem processLine_error (st : Store) (line : List Char)
    (hne : line ≠ []) (herr : isErrorLine line = true) :
    ∃ r, processLine st line = (st, some r)
      ∧ "ERROR:".toList.isPrefixOf r.toList = true := by
  have hne' : line.isEmpty = false := isEmpty_false_of_ne_nil hne
  by_cases hS : (extractToken line).1 = "SET".toList
  · have h0 : ((lineKey line).isEmpty || (lineValue line).isEmpty) = true := by
      have h1 := herr
      simp only [isErrorLine, hS, eq_self_iff_true, if_true] at h1
      exact h1
    have h2 : (!(lineKey line).isEmpty && !(lineValue line).isEmpty) = false := by
      cases hA : (lineKey line).isEmpty <;> cases hB : (lineValue line).isEmpty <;>
        simp_all
    rw [processLine_set st line hS]
    refine ⟨"ERROR: SET requires key and value\n", ?_, by decide⟩
    simp [h2]
  · by_cases hG : (extractToken line).1 = "GET".toList
    · have h0 : (lineKey line).isEmpty = true := by
        have h1 := herr
        simp only [isErrorLine, hS, hG, eq_self_iff_true, if_true, if_false,
          eq_false hS] at h1
        exact h1
      rw [processLine_get st line hG]
      refine ⟨"ERROR: GET requires key\n", ?_, by decide⟩
      simp [h0]
    · by_cases hD : (extractToken line).1 = "DEL".toList
      · have h0 : (lineKey line).isEmpty = true := by
          have h1 := herr
          simp only [isErrorLine, hD, eq_self_iff_true, if_true, if_false,
            eq_false hS, eq_false hG] at h1
          exact h1
        rw [processLine_del st line hD]
        refine ⟨"ERROR: DEL requires key\n", ?_, by decide⟩
        simp [h0]
      · exact ⟨"ERROR: Unknown command\n",
          processLine_unknown st line hne' hS hG hD, by decide⟩

/-- C7: a non-empty malformed or unknown command line is answered with
exactly one `ERROR:`-prefixed response, the store is untouched, and the
connection stays open — the remaining lines are processed exactly as before;
an empty line produces no response at all and is skipped. -/
theorem error_line_keeps_connection (st : Store) (line : List Char)
    (rest : List (List Char)) (wr : List Bool)
    (hne : line ≠ []) (herr : isErrorLine line = true) :
    (∃ r, processLine st line = (st, some r)
      ∧ "ERROR:".toList.isPrefixOf r.toList = true
      ∧ runLines st (true :: wr) (line :: rest)
          = ((runLines st wr rest).1, r :: (runLines st wr rest).2))
    ∧ processLine st [] = (st, none)
    ∧ runLines st wr ([] :: rest) = runLines st wr rest := by
  obtain ⟨r, hr, hpre⟩ := processLine_error st line hne herr
  exact ⟨⟨r, hr, hpre, runLines_cons_some_true st st r wr line rest hr⟩, rfl,
    runLines_cons_none st st wr [] rest rfl⟩

/-- Witness for C7 on the unknown command `"FOO bar"` followed by a `GET`. -/
theorem error_line_witness :
    "FOO bar".toList ≠ ([] : List Char)
    ∧ isErrorLine "FOO bar".toList = true
    ∧ ((∃ r, processLine emptyStore "FOO bar".toList = (emptyStore, some r)
        ∧ "ERROR:".toList.isPrefixOf r.toList = true
        ∧ runLines emptyStore (true :: []) ("FOO bar".toList :: ["GET k".toList])
            = ((runLines emptyStore [] ["GET k".toList]).1,
               r :: (runLines emptyStore [] ["GET k".toList]).2))
      ∧ processLine emptyStore [] = (emptyStore, none)
      ∧ runLines emptyStore [] ([] :: ["GET k".toList])
          = runLines emptyStore [] ["GET k".toList]) :=
  ⟨by decide, by decide,
    error_line_keeps_connection emptyStore "FOO bar".toList ["GET k".toList] []
      (by decide) (by decide)⟩

/-- C8: when the write of a response fails, the handler closes at once: the
run ends with the store as of the failed line, no response is recorded, and
the remaining buffered lines — whatever they are — are never processed. -/
theorem write_failure_closes (st st2 : Store) (r : String) (line : List Char)
    (rest rest2 : List (List Char)) (wr wr2 : List Bool)
    (h : processLine st line = (st2, some r)) :
    runLines st (false :: wr) (line :: rest) = (st2, [])
    ∧ runLines st (false :: wr) (line :: rest)
        = runLines st (false :: wr2) (line :: rest2) := by
  have e : ∀ (ws : List Bool) (ls : List (List Char)),
      runLines st (false :: ws) (line :: ls) = (st2, []) := by
    intro ws ls
    simp [runLines, h]
  exact ⟨e wr rest, (e wr rest).trans (e wr2 rest2).symm⟩

/-- Witness for C8: a failed write of the `"FOO"` error response drops the
following `GET` line. -/
theorem write_failure_witness :
    processLine emptyStore "FOO".toList = (emptyStore, some "ERROR: Unknown command\n")
    ∧ (runLines emptyStore (false :: []) ("FOO".toList :: ["GET k".toList])
        = (emptyStore, [])
      ∧ runLines emptyStore (false :: []) ("FOO".toList :: ["GET k".toList])
          = runLines emptyStore (false :: []) ("FOO".toList :: [])) :=
  ⟨rfl, write_failure_closes emptyStore emptyStore "ERROR: Unknown command\n"
    "FOO".toList ["GET k".toList] [] [] [] rfl⟩

end KVSpec
